import Mathlib

/-!
# Verification of the MT5 US News Blackout Bridge (src/main.py)

Shallow embedding of the single-file FastAPI service. Conventions:

* Instants (`datetime.timestamp()`, `time.time()`) are modelled as integer
  Unix seconds (`Int`); the service's window arithmetic works at second
  precision on these values.
* Python's `int(x)` applied to a quotient truncates toward zero, which on
  integer numerators is `Int.tdiv`.
* The external HTTP call is modelled by passing the upstream response as a
  value; the external numeric/ISO-8601 parsers wrapped in try/except are
  modelled as oracle functions `String → Option Int` (`none` = the library
  call raised), while all guard and fallback logic around them is translated
  from the source.
* A raised `HTTPException` is modelled with `Except`; the mutable module
  cache `_CACHE` is threaded as explicit state.
-/

namespace Bridge

/-- A normalized calendar event as stored in the cache (the dict built at
src/main.py:123-130). `event_time_utc` is an Int epoch, present by
construction (an event with no parseable time is never constructed). -/
structure Event where
  event : String
  currency : String
  impact : String
  event_time_utc : Int
deriving DecidableEq

/-- The module-level `_CACHE = {"ts": 0.0, "data": None}` (src/main.py:22):
`ts` is the fetch instant, `data` the stored event list (`none` before the
first successful fetch). -/
structure Cache where
  ts : Int
  data : Option (List Event)
deriving DecidableEq

/-- The upstream HTTP response observed by `client.get(FF_THISWEEK_URL)`:
its status code and its body text (`r.text`). -/
structure UpstreamResponse where
  status_code : Nat
  body : String
deriving DecidableEq

/-- A raised `fastapi.HTTPException` (status code and detail string). -/
structure HTTPException where
  status_code : Nat
  detail : String
deriving DecidableEq

/-- One `<event>` element of the feed: the text content of each child tag
the code reads, `none` when the child is absent. -/
structure RawEvent where
  currency : Option String
  country : Option String
  impact : Option String
  title : Option String
  event : Option String
  timestamp : Option String
  date : Option String
  time : Option String
deriving DecidableEq

/-- Python `str.strip()`: drop leading and trailing whitespace. Written on
the character list so that proofs can evaluate it. -/
def pyStrip (s : String) : String :=
  ⟨((s.data.dropWhile Char.isWhitespace).reverse.dropWhile
    Char.isWhitespace).reverse⟩

/-- Python `str.upper()` (the fields compared are ASCII). -/
def pyUpper (s : String) : String :=
  ⟨s.data.map Char.toUpper⟩

/-- Python `str.lower()` (the fields compared are ASCII). -/
def pyLower (s : String) : String :=
  ⟨s.data.map Char.toLower⟩

/-- `_safe_text` (src/main.py:38-39): strip the element's text, "" when the
element is missing. -/
def _safe_text (el : Option String) : String :=
  match el with
  | some s => pyStrip s
  | none => ""

/-- `_parse_epoch_utc` (src/main.py:41-52): empty string gives None,
otherwise `int(float(s))` as UTC epoch; any exception gives None. The
numeric conversion itself is the oracle `pNum` (`none` = raised). -/
def _parse_epoch_utc (pNum : String → Option Int) (s : String) : Option Int :=
  if s = "" then none else pNum s

/-- `_is_blackout` (src/main.py:54-57): `start ≤ now ≤ end` with
`start = event_time - pre_min*60`, `end = event_time + post_min*60`,
all in seconds, both comparisons inclusive. -/
def _is_blackout (now event_time : Int) (pre_min post_min : Int) : Bool :=
  let start := event_time - pre_min * 60
  let stop := event_time + post_min * 60
  decide (start ≤ now) && decide (now ≤ stop)

/-- The `minutes_to_clear` computation of the status route
(src/main.py:159-160): `end_ts = dt.timestamp() + post_minutes*60`;
`max(0, int((end_ts - now.timestamp()) / 60))`. Python's `int()` on the
quotient truncates toward zero, i.e. `Int.tdiv` on integer seconds. -/
def minutes_to_clear (now event_time : Int) (post_minutes : Int) : Int :=
  let end_ts := event_time + post_minutes * 60
  max 0 ((end_ts - now).tdiv 60)

/-- The currency tag of an `<event>` element (src/main.py:90):
`_safe_text(ev.find("currency")) or _safe_text(ev.find("country"))` —
Python `or` takes the country text when the currency text is empty. -/
def rawCurrency (ev : RawEvent) : String :=
  let c := _safe_text ev.currency
  if c = "" then _safe_text ev.country else c

/-- The title of an `<event>` element (src/main.py:99):
`_safe_text(ev.find("title")) or _safe_text(ev.find("event"))`. -/
def rawTitle (ev : RawEvent) : String :=
  let t := _safe_text ev.title
  if t = "" then _safe_text ev.event else t

/-- Timestamp extraction for one `<event>` (src/main.py:100-118): prefer the
epoch `<timestamp>` field; otherwise combine `<date>` and `<time>` as
`f"{date_s}T{time_s}:00"` parsed by `datetime.fromisoformat` (oracle
`pIso`, `none` = raised) and treated as UTC, skipping when either part is
empty or the time reads "all day" / "tentative" (case-insensitively). -/
def _event_time_of (pNum pIso : String → Option Int) (ev : RawEvent) :
    Option Int :=
  match _parse_epoch_utc pNum (_safe_text ev.timestamp) with
  | some dt => some dt
  | none =>
    let date_s := _safe_text ev.date
    let time_s := _safe_text ev.time
    if date_s ≠ "" && time_s ≠ "" && pyLower time_s ≠ "all day" &&
        pyLower time_s ≠ "tentative" then
      pIso (date_s ++ "T" ++ time_s ++ ":00")
    else
      none

/-- The per-`<event>` body of the fetch loop (src/main.py:88-130): keep only
USD (case-insensitive, country as fallback tag) high-impact
(case-insensitive) events with a parseable time; the stored dict hardcodes
`"currency": "USD"` and `"impact": "High"`. `none` = `continue` (event
skipped). -/
def _process_event (pNum pIso : String → Option Int) (ev : RawEvent) :
    Option Event :=
  if pyUpper (rawCurrency ev) ≠ "USD" then none
  else if pyLower (_safe_text ev.impact) ≠ "high" then none
  else
    match _event_time_of pNum pIso ev with
    | none => none
    | some dt => some ⟨rawTitle ev, "USD", "High", dt⟩

/-- The fresh-fetch path of `_fetch_us_high_impact_events`
(src/main.py:68-134), taken when the cache test fails: non-200 status
raises 502 with the first 300 characters of the body; an unparseable root
document raises 502 likewise; otherwise every `<event>` element (the oracle
`xmlEvents` models `ET.fromstring` + `findall(".//event")`, `none` =
parse exception) is filtered by `_process_event` and the cache is
overwritten (`ts := now_ts`, `data := events`) before returning. -/
def _fetch_fresh (now_ts : Int) (cache : Cache) (resp : UpstreamResponse)
    (xmlEvents : String → Option (List RawEvent))
    (pNum pIso : String → Option Int) :
    Except HTTPException (List Event) × Cache :=
  if resp.status_code ≠ 200 then
    (.error ⟨502, "Calendar upstream error: " ++ toString resp.status_code ++
      " | " ++ resp.body.take 300⟩, cache)
  else
    match xmlEvents resp.body with
    | none =>
      (.error ⟨502, "Upstream returned invalid XML | " ++ resp.body.take 300⟩,
        cache)
    | some raws =>
      let events := raws.filterMap (_process_event pNum pIso)
      (.ok events, ⟨now_ts, some events⟩)

/-- `_fetch_us_high_impact_events` (src/main.py:62-134). Cache test
(lines 64-66): `_CACHE["data"] is not None and (now_ts - _CACHE["ts"]) <
CACHE_TTL_SEC` returns the stored list unchanged; otherwise the fresh
fetch runs. -/
def _fetch_us_high_impact_events (cache_ttl_sec now_ts : Int) (cache : Cache)
    (resp : UpstreamResponse) (xmlEvents : String → Option (List RawEvent))
    (pNum pIso : String → Option Int) :
    Except HTTPException (List Event) × Cache :=
  match cache.data with
  | some d =>
    if now_ts - cache.ts < cache_ttl_sec then (.ok d, cache)
    else _fetch_fresh now_ts cache resp xmlEvents pNum pIso
  | none => _fetch_fresh now_ts cache resp xmlEvents pNum pIso

/-- The JSON body returned by `/us_news_status` (src/main.py:161-178):
either the blackout shape (lines 161-171) or the all-clear shape
(lines 173-178). -/
inductive StatusResponse where
  | blackout (event : String) (currency : String) (impact : String)
      (event_time_utc : Int) (minutes_to_clear : Int)
      (pre_minutes post_minutes : Int) (source : String)
  | clear (pre_minutes post_minutes : Int) (source : String)
deriving DecidableEq

/-- `us_news_status` (src/main.py:143-178). Auth (lines 149-150):
`if not BRIDGE_TOKEN or token != BRIDGE_TOKEN` raises 401. Then the cached
fetch runs (a raised `HTTPException` propagates), and the first event of
the list for which `_is_blackout` holds is reported with hardcoded
`"currency": "USD"`, `"impact": "High"`, and `minutes_to_clear`; otherwise
the all-clear shape is returned. -/
def us_news_status (bridge_token token : String)
    (pre_minutes post_minutes : Int) (now : Int)
    (cache_ttl_sec now_ts : Int) (cache : Cache) (resp : UpstreamResponse)
    (xmlEvents : String → Option (List RawEvent))
    (pNum pIso : String → Option Int) :
    Except HTTPException StatusResponse × Cache :=
  if bridge_token = "" ∨ token ≠ bridge_token then
    (.error ⟨401, "Unauthorized"⟩, cache)
  else
    match _fetch_us_high_impact_events cache_ttl_sec now_ts cache resp
        xmlEvents pNum pIso with
    | (.error e, c) => (.error e, c)
    | (.ok events, c) =>
      match events.find?
          (fun ev => _is_blackout now ev.event_time_utc pre_minutes
            post_minutes) with
      | some ev =>
        (.ok (.blackout ev.event "USD" "High" ev.event_time_utc
          (minutes_to_clear now ev.event_time_utc post_minutes)
          pre_minutes post_minutes "ff_thisweek_xml"), c)
      | none =>
        (.ok (.clear pre_minutes post_minutes "ff_thisweek_xml"), c)

/-! ## Basic lemmas about the cached fetch -/

/-- Cache hit (src/main.py:64-66): an initialized entry younger than the
TTL is returned unchanged, with the cache untouched. -/
theorem fetch_hit (cache_ttl_sec now_ts ts : Int) (d : List Event)
    (resp : UpstreamResponse) (xmlEvents : String → Option (List RawEvent))
    (pNum pIso : String → Option Int) (h : now_ts - ts < cache_ttl_sec) :
    _fetch_us_high_impact_events cache_ttl_sec now_ts ⟨ts, some d⟩ resp
        xmlEvents pNum pIso = (.ok d, ⟨ts, some d⟩) := by
  unfold _fetch_us_high_impact_events
  simp [h]

/-- Cache miss (uninitialized entry or age at least the TTL): the fresh
fetch runs. -/
theorem fetch_miss (cache_ttl_sec now_ts : Int) (cache : Cache)
    (resp : UpstreamResponse) (xmlEvents : String → Option (List RawEvent))
    (pNum pIso : String → Option Int)
    (h : cache.data = none ∨ cache_ttl_sec ≤ now_ts - cache.ts) :
    _fetch_us_high_impact_events cache_ttl_sec now_ts cache resp xmlEvents
        pNum pIso = _fetch_fresh now_ts cache resp xmlEvents pNum pIso := by
  rcases cache with ⟨ts, data⟩
  rcases data with _ | d
  · rfl
  · rcases h with h | h
    · exact absurd h (by simp)
    · simp only [Cache.ts] at h
      unfold _fetch_us_high_impact_events
      simp only [if_neg (by omega : ¬ now_ts - ts < cache_ttl_sec)]

/-- A successful fresh fetch filters the feed's `<event>` elements and
overwrites the whole cache entry with the result. -/
theorem fresh_success (now_ts : Int) (cache : Cache)
    (resp : UpstreamResponse) (xmlEvents : String → Option (List RawEvent))
    (pNum pIso : String → Option Int) (raws : List RawEvent)
    (h200 : resp.status_code = 200) (hxml : xmlEvents resp.body = some raws) :
    _fetch_fresh now_ts cache resp xmlEvents pNum pIso
      = (.ok (raws.filterMap (_process_event pNum pIso)),
          ⟨now_ts, some (raws.filterMap (_process_event pNum pIso))⟩) := by
  unfold _fetch_fresh
  rw [if_neg (by simp [h200]), hxml]

/-- Every `HTTPException` raised by `_fetch_us_high_impact_events` carries
status 502. -/
theorem fetch_error_is_502 {cache_ttl_sec now_ts : Int} {cache : Cache}
    {resp : UpstreamResponse} {xmlEvents : String → Option (List RawEvent)}
    {pNum pIso : String → Option Int} {e : HTTPException} {c : Cache}
    (h : _fetch_us_high_impact_events cache_ttl_sec now_ts cache resp
      xmlEvents pNum pIso = (.error e, c)) :
    e.status_code = 502 := by
  have fresh : _fetch_fresh now_ts cache resp xmlEvents pNum pIso
      = (.error e, c) → e.status_code = 502 := by
    intro h2
    unfold _fetch_fresh at h2
    split at h2
    · simp only [Prod.mk.injEq, Except.error.injEq] at h2
      exact h2.1 ▸ rfl
    · split at h2
      · simp only [Prod.mk.injEq, Except.error.injEq] at h2
        exact h2.1 ▸ rfl
      · simp at h2
  unfold _fetch_us_high_impact_events at h
  split at h
  · split at h
    · simp at h
    · exact fresh h
  · exact fresh h

/-! ## Arithmetic facts about the window evaluator -/

/-- Truncating division by 60 of a negative integer is nonpositive. -/
theorem tdiv60_nonpos {n : Int} (h : n < 0) : n.tdiv 60 ≤ 0 := by
  have h2 : (0 : Int) ≤ -n := by omega
  have h3 := Int.tdiv_nonneg h2 (by decide : (0 : Int) ≤ 60)
  rw [Int.neg_tdiv] at h3
  omega

/-- C1: for all `now`, `event_time` and nonnegative `pre_minutes`,
`post_minutes`, `_is_blackout` returns true iff
`event_time - pre_minutes ≤ now ≤ event_time + post_minutes` (in minutes,
i.e. `pre_minutes*60` seconds on integer-second instants), with both
boundaries inclusive. -/
theorem is_blackout_iff (now event_time pre_minutes post_minutes : Int)
    (hpre : 0 ≤ pre_minutes) (hpost : 0 ≤ post_minutes) :
    _is_blackout now event_time pre_minutes post_minutes = true ↔
      (event_time - pre_minutes * 60 ≤ now ∧
        now ≤ event_time + post_minutes * 60) := by
  simp [_is_blackout]

/-- Witness for `is_blackout_iff` at `now = 995`, `event_time = 1000`,
`pre_minutes = 1`, `post_minutes = 2`. -/
theorem is_blackout_iff_witness :
    _is_blackout 995 1000 1 2 = true ↔
      ((1000 : Int) - 1 * 60 ≤ 995 ∧ (995 : Int) ≤ 1000 + 2 * 60) :=
  is_blackout_iff 995 1000 1 2 (by decide) (by decide)

/-- C4: for nonnegative `post_minutes` the reported `minutes_to_clear`
equals `max 0 (floor((event_time + post_minutes*60 - now) / 60))` (floor
division is `Int.fdiv`; the truncation the code computes agrees with the
floor under `max 0`) and is never negative; and for an event at `t` with
`post_minutes = 30` and `now = t - 5min` it equals 35. -/
theorem minutes_to_clear_eq_floor :
    (∀ now event_time post_minutes : Int, 0 ≤ post_minutes →
      minutes_to_clear now event_time post_minutes
          = max 0 ((event_time + post_minutes * 60 - now).fdiv 60) ∧
        0 ≤ minutes_to_clear now event_time post_minutes) ∧
    ∀ t : Int, minutes_to_clear (t - 5 * 60) t 30 = 35 := by
  constructor
  · intro now event_time post_minutes _
    refine ⟨?_, le_max_left 0 _⟩
    show max 0 ((event_time + post_minutes * 60 - now).tdiv 60) = _
    rw [Int.fdiv_eq_ediv _ (by decide : (0 : Int) ≤ 60)]
    rcases le_or_lt 0 (event_time + post_minutes * 60 - now) with h | h
    · rw [Int.tdiv_eq_ediv h (by decide : (0 : Int) ≤ 60)]
    · rw [max_eq_left (tdiv60_nonpos h),
        max_eq_left (by omega : (event_time + post_minutes * 60 - now) / 60 ≤ 0)]
  · intro t
    show max 0 ((t + 30 * 60 - (t - 5 * 60)).tdiv 60) = 35
    rw [show t + 30 * 60 - (t - 5 * 60) = 2100 by ring]
    decide

/-- Witness for `minutes_to_clear_eq_floor`: the floor form at
`now = 0`, `event_time = 300`, `post_minutes = 30`, and the
Scenario-1 value 35 at `t = 100`. -/
theorem minutes_to_clear_eq_floor_witness :
    (minutes_to_clear 0 300 30 = max 0 (((300 : Int) + 30 * 60 - 0).fdiv 60) ∧
      0 ≤ minutes_to_clear 0 300 30) ∧
    minutes_to_clear (100 - 5 * 60) 100 30 = 35 :=
  ⟨minutes_to_clear_eq_floor.1 0 300 30 (by decide),
    minutes_to_clear_eq_floor.2 100⟩

/-- C5 counterexample: at `now = -30`, `event_time = 0`,
`post_minutes = 0`, the code computes `minutes_to_clear = 0` even though
`now` is strictly before the window end `event_time + post_minutes*60 = 0`
(30 seconds remain but truncation of 30/60 gives 0), refuting
"minutes_to_clear is 0 iff now ≥ event_time + post_minutes". -/
theorem minutes_to_clear_zero_cex :
    minutes_to_clear (-30) 0 0 = 0 ∧ ¬ ((0 : Int) + 0 * 60 ≤ -30) := by
  decide

/-- C5 amended: for nonnegative `post_minutes`, `minutes_to_clear` is 0
iff strictly less than 60 seconds remain until the window end, i.e. iff
`event_time + post_minutes*60 - now < 60`; it is strictly positive exactly
when at least a full minute remains. -/
theorem minutes_to_clear_zero_iff (now event_time post_minutes : Int)
    (h : 0 ≤ post_minutes) :
    minutes_to_clear now event_time post_minutes = 0 ↔
      event_time + post_minutes * 60 - now < 60 := by
  show max 0 ((event_time + post_minutes * 60 - now).tdiv 60) = 0 ↔ _
  rcases le_or_lt 0 (event_time + post_minutes * 60 - now) with h0 | h0
  · rw [Int.tdiv_eq_ediv h0 (by decide : (0 : Int) ≤ 60)]
    constructor
    · intro hmax
      have := max_eq_left_iff.mp hmax
      omega
    · intro hlt
      rw [max_eq_left (by omega : (event_time + post_minutes * 60 - now) / 60 ≤ 0)]
  · exact iff_of_true (max_eq_left (tdiv60_nonpos h0)) (by omega)

/-- Witness for `minutes_to_clear_zero_iff` at `now = 2000`,
`event_time = 0`, `post_minutes = 30`. -/
theorem minutes_to_clear_zero_iff_witness :
    minutes_to_clear 2000 0 30 = 0 ↔ (0 : Int) + 30 * 60 - 2000 < 60 :=
  minutes_to_clear_zero_iff 2000 0 30 (by decide)

/-! ## The status endpoint -/

/-- C3: the status endpoint answers 401 Unauthorized exactly when the
configured shared secret is empty/unset or the supplied token differs from
it; in particular an unconfigured secret always rejects, whatever token is
sent, and never skips authentication. -/
theorem auth_rejects_401 (bridge_token token : String)
    (pre_minutes post_minutes now cache_ttl_sec now_ts : Int) (cache : Cache)
    (resp : UpstreamResponse) (xmlEvents : String → Option (List RawEvent))
    (pNum pIso : String → Option Int) :
    (us_news_status bridge_token token pre_minutes post_minutes now
        cache_ttl_sec now_ts cache resp xmlEvents pNum pIso).1
      = .error ⟨401, "Unauthorized"⟩ ↔
      (bridge_token = "" ∨ token ≠ bridge_token) := by
  constructor
  · intro h
    by_contra hc
    push_neg at hc
    unfold us_news_status at h
    rw [if_neg (by push_neg; exact hc)] at h
    split at h
    · rename_i e c hf
      simp only [Except.error.injEq] at h
      have h502 := fetch_error_is_502 hf
      rw [h] at h502
      exact absurd h502 (by decide)
    · rename_i events c hf
      split at h <;> simp at h
  · intro h
    unfold us_news_status
    rw [if_pos h]

/-- C2: with valid auth and a warm cache holding the feed order `[B, A]`,
when `B` is in blackout the endpoint reports `B` — the scan takes the first
matching event in fetch order, regardless of `A` (which may be temporally
nearer and also in blackout). -/
theorem first_found_reported (bridge_token token : String)
    (pre_minutes post_minutes now cache_ttl_sec now_ts ts : Int)
    (B A : Event) (resp : UpstreamResponse)
    (xmlEvents : String → Option (List RawEvent))
    (pNum pIso : String → Option Int)
    (hsecret : bridge_token ≠ "") (htoken : token = bridge_token)
    (hwarm : now_ts - ts < cache_ttl_sec)
    (hB : _is_blackout now B.event_time_utc pre_minutes post_minutes = true)
    (hA : _is_blackout now A.event_time_utc pre_minutes post_minutes = true) :
    us_news_status bridge_token token pre_minutes post_minutes now
        cache_ttl_sec now_ts ⟨ts, some [B, A]⟩ resp xmlEvents pNum pIso
      = (.ok (.blackout B.event "USD" "High" B.event_time_utc
          (minutes_to_clear now B.event_time_utc post_minutes)
          pre_minutes post_minutes "ff_thisweek_xml"), ⟨ts, some [B, A]⟩) := by
  unfold us_news_status
  rw [if_neg (by simp [hsecret, htoken])]
  rw [fetch_hit cache_ttl_sec now_ts ts [B, A] resp xmlEvents pNum pIso hwarm]
  simp [List.find?, hB]

/-- Witness for `first_found_reported`: feed `[B, A]` with `B` at epoch
1000 and `A` at 1010 (nearer to `now = 1000`... both in blackout), warm
cache, matching token. -/
theorem first_found_reported_witness :
    us_news_status "s3cret" "s3cret" 10 30 1000 300 100
        ⟨0, some [⟨"B", "USD", "High", 1000⟩, ⟨"A", "USD", "High", 1010⟩]⟩
        ⟨200, ""⟩ (fun _ => none) (fun _ => none) (fun _ => none)
      = (.ok (.blackout "B" "USD" "High" 1000 (minutes_to_clear 1000 1000 30)
          10 30 "ff_thisweek_xml"),
        ⟨0, some [⟨"B", "USD", "High", 1000⟩, ⟨"A", "USD", "High", 1010⟩]⟩) :=
  first_found_reported "s3cret" "s3cret" 10 30 1000 300 100 0
    ⟨"B", "USD", "High", 1000⟩ ⟨"A", "USD", "High", 1010⟩ ⟨200, ""⟩
    (fun _ => none) (fun _ => none) (fun _ => none)
    (by decide) rfl (by decide) (by decide) (by decide)

/-! ## Cache contract -/

/-- C7 counterexample: with TTL = 0, an entry whose `fetched_at` reads 1
and a request clock reading 0 (wall clock stepped backwards), the cache
test `now_ts - ts < 0` holds, so the stored list is served and no fetch
occurs — the failing upstream response (status 500) is ignored, refuting
"with TTL = 0 a fetch occurs on every request". -/
theorem ttl_zero_cex :
    _fetch_us_high_impact_events 0 0 ⟨1, some []⟩ ⟨500, "boom"⟩
        (fun _ => none) (fun _ => none) (fun _ => none)
      = (.ok [], ⟨1, some []⟩) := rfl

/-- C7 amended: (1) an initialized entry strictly younger than the TTL is
returned unchanged without consulting the upstream (the result does not
depend on the response); (2) otherwise the fetcher runs and on success
`fetched_at` and the event list are replaced together before the new list
is returned; (3) with TTL = 0, a fetch occurs on every request whose clock
reads at least the stored `fetched_at` (a clock that stepped back before
`fetched_at` still counts the entry as fresh). -/
theorem get_or_fetch_contract :
    (∀ (cache_ttl_sec now_ts ts : Int) (d : List Event)
        (resp : UpstreamResponse) (xmlEvents : String → Option (List RawEvent))
        (pNum pIso : String → Option Int),
      now_ts - ts < cache_ttl_sec →
      _fetch_us_high_impact_events cache_ttl_sec now_ts ⟨ts, some d⟩ resp
          xmlEvents pNum pIso = (.ok d, ⟨ts, some d⟩)) ∧
    (∀ (cache_ttl_sec now_ts : Int) (cache : Cache) (resp : UpstreamResponse)
        (xmlEvents : String → Option (List RawEvent))
        (pNum pIso : String → Option Int) (raws : List RawEvent),
      (cache.data = none ∨ cache_ttl_sec ≤ now_ts - cache.ts) →
      resp.status_code = 200 → xmlEvents resp.body = some raws →
      _fetch_us_high_impact_events cache_ttl_sec now_ts cache resp xmlEvents
          pNum pIso
        = (.ok (raws.filterMap (_process_event pNum pIso)),
            ⟨now_ts, some (raws.filterMap (_process_event pNum pIso))⟩)) ∧
    (∀ (now_ts : Int) (cache : Cache) (resp : UpstreamResponse)
        (xmlEvents : String → Option (List RawEvent))
        (pNum pIso : String → Option Int),
      cache.ts ≤ now_ts →
      _fetch_us_high_impact_events 0 now_ts cache resp xmlEvents pNum pIso
        = _fetch_fresh now_ts cache resp xmlEvents pNum pIso) := by
  refine ⟨fun ttl now ts d resp xe pN pI h => fetch_hit ttl now ts d resp xe pN pI h,
    fun ttl now c resp xe pN pI raws hmiss h200 hxml => ?_,
    fun now c resp xe pN pI hts => fetch_miss 0 now c resp xe pN pI ?_⟩
  · exact (fetch_miss ttl now c resp xe pN pI hmiss).trans
      (fresh_success now c resp xe pN pI raws h200 hxml)
  · rcases c with ⟨ts, _ | d⟩
    · exact .inl rfl
    · exact .inr (by simp only [Cache.ts] at hts ⊢; omega)

/-- Witness for `get_or_fetch_contract`: a hit at age 10 against TTL 300, a
miss at age 400 whose successful fetch stores the empty filter result, and
a TTL-0 request at `now_ts = 5` against `fetched_at = 0`. -/
theorem get_or_fetch_contract_witness :
    _fetch_us_high_impact_events 300 10 ⟨0, some []⟩ ⟨500, "x"⟩
        (fun _ => none) (fun _ => none) (fun _ => none)
      = (.ok [], ⟨0, some []⟩) ∧
    _fetch_us_high_impact_events 300 400 ⟨0, some []⟩ ⟨200, "feed"⟩
        (fun _ => some []) (fun _ => none) (fun _ => none)
      = (.ok (List.filterMap (_process_event (fun _ => none) (fun _ => none)) []),
          ⟨400, some (List.filterMap (_process_event (fun _ => none) (fun _ => none)) [])⟩) ∧
    _fetch_us_high_impact_events 0 5 ⟨0, some []⟩ ⟨500, "x"⟩
        (fun _ => none) (fun _ => none) (fun _ => none)
      = _fetch_fresh 5 ⟨0, some []⟩ ⟨500, "x"⟩
          (fun _ => none) (fun _ => none) (fun _ => none) :=
  ⟨get_or_fetch_contract.1 300 10 0 [] ⟨500, "x"⟩
      (fun _ => none) (fun _ => none) (fun _ => none) (by decide),
    get_or_fetch_contract.2.1 300 400 ⟨0, some []⟩ ⟨200, "feed"⟩
      (fun _ => some []) (fun _ => none) (fun _ => none) []
      (.inr (by decide)) rfl rfl,
    get_or_fetch_contract.2.2 5 ⟨0, some []⟩ ⟨500, "x"⟩
      (fun _ => none) (fun _ => none) (fun _ => none) (by decide)⟩

/-- C8: on a cache miss with a stale entry present, a non-200 upstream
status or an unparseable root document yields a 502 `HTTPException` whose
detail carries the first 300 characters of the upstream body; the stale
list is not returned and the cache entry (both fields) is unchanged.
The third conjunct bounds the snippet the details embed. -/
theorem fetch_failure_502 :
    (∀ (cache_ttl_sec now_ts ts : Int) (d : List Event)
        (resp : UpstreamResponse) (xmlEvents : String → Option (List RawEvent))
        (pNum pIso : String → Option Int),
      cache_ttl_sec ≤ now_ts - ts → resp.status_code ≠ 200 →
      _fetch_us_high_impact_events cache_ttl_sec now_ts ⟨ts, some d⟩ resp
          xmlEvents pNum pIso
        = (.error ⟨502, "Calendar upstream error: " ++
              toString resp.status_code ++ " | " ++ resp.body.take 300⟩,
            ⟨ts, some d⟩)) ∧
    (∀ (cache_ttl_sec now_ts ts : Int) (d : List Event)
        (resp : UpstreamResponse) (xmlEvents : String → Option (List RawEvent))
        (pNum pIso : String → Option Int),
      cache_ttl_sec ≤ now_ts - ts → resp.status_code = 200 →
      xmlEvents resp.body = none →
      _fetch_us_high_impact_events cache_ttl_sec now_ts ⟨ts, some d⟩ resp
          xmlEvents pNum pIso
        = (.error ⟨502, "Upstream returned invalid XML | " ++
              resp.body.take 300⟩, ⟨ts, some d⟩)) ∧
    (∀ s : String, (s.take 300).length ≤ 300) := by
  refine ⟨fun ttl now ts d resp xe pN pI hmiss hbad => ?_,
    fun ttl now ts d resp xe pN pI hmiss h200 hxml => ?_, fun s => ?_⟩
  · rw [fetch_miss ttl now ⟨ts, some d⟩ resp xe pN pI (.inr hmiss)]
    unfold _fetch_fresh
    rw [if_pos hbad]
  · rw [fetch_miss ttl now ⟨ts, some d⟩ resp xe pN pI (.inr hmiss)]
    unfold _fetch_fresh
    rw [if_neg (by simp [h200]), hxml]
  · rw [String.take_eq]
    exact List.length_take_le 300 s.data

/-- Witness for `fetch_failure_502`: stale entry of age 400 against TTL
300, an upstream 500 with body "oops", an invalid-XML body, and the
snippet bound at a concrete string. -/
theorem fetch_failure_502_witness :
    _fetch_us_high_impact_events 300 400 ⟨0, some []⟩ ⟨500, "oops"⟩
        (fun _ => none) (fun _ => none) (fun _ => none)
      = (.error ⟨502, "Calendar upstream error: " ++ toString (500 : Nat) ++
            " | " ++ String.take "oops" 300⟩, ⟨0, some []⟩) ∧
    _fetch_us_high_impact_events 300 400 ⟨0, some []⟩ ⟨200, "not xml"⟩
        (fun _ => none) (fun _ => none) (fun _ => none)
      = (.error ⟨502, "Upstream returned invalid XML | " ++
            String.take "not xml" 300⟩, ⟨0, some []⟩) ∧
    (String.take "snippet" 300).length ≤ 300 :=
  ⟨fetch_failure_502.1 300 400 0 [] ⟨500, "oops"⟩
      (fun _ => none) (fun _ => none) (fun _ => none) (by decide) (by decide),
    fetch_failure_502.2.1 300 400 0 [] ⟨200, "not xml"⟩
      (fun _ => none) (fun _ => none) (fun _ => none) (by decide) rfl rfl,
    fetch_failure_502.2.2 "snippet"⟩

/-- C9: a single `<event>` element that `_process_event` rejects (missing
or unparseable timestamp, "all day"/"tentative" time, a fallback parse
that raises, or any other per-event defect) is skipped on its own: the
fetch still succeeds with exactly the events of the rest of the feed, and
no request-level error is produced. -/
theorem per_event_failure_isolated
    (cache_ttl_sec now_ts : Int) (cache : Cache) (resp : UpstreamResponse)
    (xmlEvents : String → Option (List RawEvent))
    (pNum pIso : String → Option Int) (l1 l2 : List RawEvent)
    (bad : RawEvent)
    (hmiss : cache.data = none ∨ cache_ttl_sec ≤ now_ts - cache.ts)
    (h200 : resp.status_code = 200)
    (hxml : xmlEvents resp.body = some (l1 ++ bad :: l2))
    (hbad : _process_event pNum pIso bad = none) :
    _fetch_us_high_impact_events cache_ttl_sec now_ts cache resp xmlEvents
        pNum pIso
      = (.ok ((l1 ++ l2).filterMap (_process_event pNum pIso)),
          ⟨now_ts, some ((l1 ++ l2).filterMap (_process_event pNum pIso))⟩) := by
  rw [fetch_miss cache_ttl_sec now_ts cache resp xmlEvents pNum pIso hmiss,
    fresh_success now_ts cache resp xmlEvents pNum pIso (l1 ++ bad :: l2)
      h200 hxml]
  have hdrop : (l1 ++ bad :: l2).filterMap (_process_event pNum pIso)
      = (l1 ++ l2).filterMap (_process_event pNum pIso) := by
    simp [List.filterMap_append, List.filterMap_cons, hbad]
  rw [hdrop]

/-- Witness for `per_event_failure_isolated`: a feed of one defective
element (low impact and no parseable time) between two USD high-impact
elements with epoch timestamps. -/
theorem per_event_failure_isolated_witness :
    _fetch_us_high_impact_events 300 400 ⟨0, some []⟩ ⟨200, "feed"⟩
        (fun _ => some
          [⟨some "USD", none, some "High", some "CPI", none, some "100", none, none⟩,
            ⟨some "USD", none, some "Low", none, none, none, none, none⟩,
            ⟨some "USD", none, some "High", some "NFP", none, some "200", none, none⟩])
        (fun s => if s = "100" then some 100 else if s = "200" then some 200 else none) (fun _ => none)
      = (.ok
          (([(⟨some "USD", none, some "High", some "CPI", none, some "100", none, none⟩ : RawEvent)] ++
              [(⟨some "USD", none, some "High", some "NFP", none, some "200", none, none⟩ : RawEvent)]).filterMap
            (_process_event (fun s => if s = "100" then some 100 else if s = "200" then some 200 else none) (fun _ => none))),
          ⟨400, some
            (([(⟨some "USD", none, some "High", some "CPI", none, some "100", none, none⟩ : RawEvent)] ++
                [(⟨some "USD", none, some "High", some "NFP", none, some "200", none, none⟩ : RawEvent)]).filterMap
              (_process_event (fun s => if s = "100" then some 100 else if s = "200" then some 200 else none) (fun _ => none)))⟩) :=
  per_event_failure_isolated 300 400 ⟨0, some []⟩ ⟨200, "feed"⟩
    (fun _ => some
      [⟨some "USD", none, some "High", some "CPI", none, some "100", none, none⟩,
        ⟨some "USD", none, some "Low", none, none, none, none, none⟩,
        ⟨some "USD", none, some "High", some "NFP", none, some "200", none, none⟩])
    (fun s => if s = "100" then some 100 else if s = "200" then some 200 else none) (fun _ => none)
    [⟨some "USD", none, some "High", some "CPI", none, some "100", none, none⟩]
    [⟨some "USD", none, some "High", some "NFP", none, some "200", none, none⟩]
    ⟨some "USD", none, some "Low", none, none, none, none, none⟩
    (.inr (by decide)) rfl rfl (by decide)

/-- C10: a successful fetch that filters down to zero events stores the
empty list (with the fetch instant), and any later request within the TTL
is answered with that empty list straight from the cache — the hit test
only checks that `data` is initialized, not non-empty, so the result does
not depend on the upstream arguments of the later request. -/
theorem empty_fetch_cached
    (cache_ttl_sec now_ts : Int) (cache : Cache) (resp : UpstreamResponse)
    (xmlEvents : String → Option (List RawEvent))
    (pNum pIso : String → Option Int) (raws : List RawEvent)
    (hmiss : cache.data = none ∨ cache_ttl_sec ≤ now_ts - cache.ts)
    (h200 : resp.status_code = 200)
    (hxml : xmlEvents resp.body = some raws)
    (hempty : raws.filterMap (_process_event pNum pIso) = []) :
    _fetch_us_high_impact_events cache_ttl_sec now_ts cache resp xmlEvents
        pNum pIso = (.ok [], ⟨now_ts, some []⟩) ∧
    ∀ (now2 : Int) (resp2 : UpstreamResponse)
      (xmlEvents2 : String → Option (List RawEvent))
      (pNum2 pIso2 : String → Option Int),
      now2 - now_ts < cache_ttl_sec →
      _fetch_us_high_impact_events cache_ttl_sec now2 ⟨now_ts, some []⟩ resp2
          xmlEvents2 pNum2 pIso2 = (.ok [], ⟨now_ts, some []⟩) := by
  constructor
  · have h := (fetch_miss cache_ttl_sec now_ts cache resp xmlEvents pNum pIso
      hmiss).trans (fresh_success now_ts cache resp xmlEvents pNum pIso raws
        h200 hxml)
    rw [hempty] at h
    exact h
  · intro now2 resp2 xmlEvents2 pNum2 pIso2 hfresh2
    exact fetch_hit cache_ttl_sec now2 now_ts [] resp2 xmlEvents2 pNum2 pIso2
      hfresh2

/-- Witness for `empty_fetch_cached`: a cold cache, a 200 response whose
feed holds one non-USD element (filtered to nothing), stored at instant
100; then a request at instant 150 (TTL 300) with a failing upstream is
still served the empty list from the cache. -/
theorem empty_fetch_cached_witness :
    _fetch_us_high_impact_events 300 100 ⟨0, none⟩ ⟨200, "feed"⟩
        (fun _ => some [⟨some "EUR", none, some "High", none, none, some "7", none, none⟩])
        (fun _ => none) (fun _ => none)
      = (.ok [], ⟨100, some []⟩) ∧
    _fetch_us_high_impact_events 300 150 ⟨100, some []⟩ ⟨500, "down"⟩
        (fun _ => none) (fun _ => none) (fun _ => none)
      = (.ok [], ⟨100, some []⟩) :=
  ⟨(empty_fetch_cached 300 100 ⟨0, none⟩ ⟨200, "feed"⟩
      (fun _ => some [⟨some "EUR", none, some "High", none, none, some "7", none, none⟩])
      (fun _ => none) (fun _ => none)
      [⟨some "EUR", none, some "High", none, none, some "7", none, none⟩]
      (.inl rfl) rfl rfl (by decide)).1,
    (empty_fetch_cached 300 100 ⟨0, none⟩ ⟨200, "feed"⟩
      (fun _ => some [⟨some "EUR", none, some "High", none, none, some "7", none, none⟩])
      (fun _ => none) (fun _ => none)
      [⟨some "EUR", none, some "High", none, none, some "7", none, none⟩]
      (.inl rfl) rfl rfl (by decide)).2 150 ⟨500, "down"⟩
      (fun _ => none) (fun _ => none) (fun _ => none) (by decide)⟩

/-- C6: an event produced by the per-element filter always carries
`currency = "USD"` and `impact = "High"` (its stored time is an `Int`
epoch by construction), it is only produced when the upstream
currency-or-country tag upcases to "USD" and the impact field downcases to
"high", and its time is exactly the parsed one; an element whose timestamp
cannot be extracted (no usable epoch field and failed or skipped
date+time fallback) is dropped entirely. -/
theorem cached_event_invariants (pNum pIso : String → Option Int)
    (raw : RawEvent) :
    (∀ e : Event, _process_event pNum pIso raw = some e →
      e.currency = "USD" ∧ e.impact = "High" ∧
      pyUpper (rawCurrency raw) = "USD" ∧
      pyLower (_safe_text raw.impact) = "high" ∧
      _event_time_of pNum pIso raw = some e.event_time_utc) ∧
    (_event_time_of pNum pIso raw = none →
      _process_event pNum pIso raw = none) := by
  constructor
  · intro e he
    unfold _process_event at he
    split at he
    · exact absurd he (by simp)
    · split at he
      · exact absurd he (by simp)
      · rename_i hcur himp
        split at he
        · exact absurd he (by simp)
        · rename_i dt htime
          simp only [Option.some.injEq] at he
          subst he
          exact ⟨rfl, rfl, not_ne_iff.mp hcur, not_ne_iff.mp himp, htime⟩
  · intro h
    unfold _process_event
    split
    · rfl
    · split
      · rfl
      · rw [h]

/-- Witness for `cached_event_invariants`: a raw element with currency tag
"usd", impact "High", epoch field "123" parsed by `String.toInt?`. -/
theorem cached_event_invariants_witness :
    (⟨"CPI", "USD", "High", 123⟩ : Event).currency = "USD" ∧
    (⟨"CPI", "USD", "High", 123⟩ : Event).impact = "High" ∧
    pyUpper (rawCurrency ⟨some "usd", none, some "High", some "CPI", none,
      some "123", none, none⟩) = "USD" ∧
    pyLower (_safe_text (RawEvent.impact ⟨some "usd", none, some "High",
      some "CPI", none, some "123", none, none⟩)) = "high" ∧
    _event_time_of (fun s => if s = "123" then some 123 else none)
        (fun _ => none)
        ⟨some "usd", none, some "High", some "CPI", none, some "123", none,
          none⟩
      = some (Event.event_time_utc ⟨"CPI", "USD", "High", 123⟩) :=
  (cached_event_invariants (fun s => if s = "123" then some 123 else none)
    (fun _ => none)
    ⟨some "usd", none, some "High", some "CPI", none, some "123", none,
      none⟩).1 ⟨"CPI", "USD", "High", 123⟩ (by decide)

end Bridge
